import Mathlib

/-!
Shallow embedding of the ExecuTorch Flutter C wrapper core
(`src/c_wrapper`): error channel (`error_mapping.c`), tensor utilities
(`tensor_utils.c`, `executorch_flutter_wrapper.c`) and the model
forward/disposal path (`executorch_flutter_wrapper.cpp`).

Machine integers are modelled as `Nat`/`Int` with explicit wrapping where
the C code can overflow (`size_t` arithmetic is reduced modulo `2 ^ 64`,
`int32_t` casts wrap into `[-2 ^ 31, 2 ^ 31)`).  C strings are modelled as
their logical character lists (the characters before the terminating NUL).
Pointers that may be NULL are modelled as `Option`.
-/

namespace ETFlutter

/-- Width of `size_t` arithmetic (all sizes in the C code are 64-bit). -/
def W : Nat := 2 ^ 64

/-- Cast of a signed value to `size_t` (C integer conversion, wraps mod `2 ^ 64`). -/
def sizeTCast (x : Int) : Nat := (x % (2 ^ 64 : Int)).toNat

/-- Cast of an integer into `int32_t` (two's-complement wrap). -/
def int32Cast (x : Int) : Int := (x + 2 ^ 31) % 2 ^ 32 - 2 ^ 31

/-- Error codes from `error_codes.h`. -/
inductive ETFlutterErrorCode where
  | ET_FLUTTER_SUCCESS
  | ET_FLUTTER_ERROR_MODEL_LOAD
  | ET_FLUTTER_ERROR_INFERENCE
  | ET_FLUTTER_ERROR_VALIDATION
  | ET_FLUTTER_ERROR_MEMORY
  | ET_FLUTTER_ERROR_IO_FAILURE
  | ET_FLUTTER_ERROR_PLATFORM
  | ET_FLUTTER_ERROR_INVALID_HANDLE
  | ET_FLUTTER_ERROR_INVALID_ARGUMENT
deriving DecidableEq, Repr

/-- `ETFlutterError`: error code plus a bounded message buffer
(`char message[256]`); the message is modelled as the characters before
the terminating NUL. -/
structure ETFlutterError where
  code : ETFlutterErrorCode
  message : List Char
deriving DecidableEq, Repr

/-- `et_flutter_set_error` (`error_mapping.c`): overwrites the code and
writes the formatted message via `vsnprintf(message, 256, ...)`, which
stores at most 255 characters plus the NUL terminator. -/
def et_flutter_set_error (error : ETFlutterError) (code : ETFlutterErrorCode)
    (msg : List Char) : ETFlutterError :=
  { error with code := code, message := msg.take 255 }

/-- `et_flutter_clear_error` (`error_mapping.c`): resets to SUCCESS with an
empty message. -/
def et_flutter_clear_error (error : ETFlutterError) : ETFlutterError :=
  { error with code := .ET_FLUTTER_SUCCESS, message := [] }

/-- Dtype constants from `ETFlutterDataType`; the C enum value is carried
as an `Int` so that values outside the enumeration are representable. -/
def ET_FLUTTER_DTYPE_FLOAT32 : Int := 0

def ET_FLUTTER_DTYPE_INT32 : Int := 1

def ET_FLUTTER_DTYPE_INT8 : Int := 2

def ET_FLUTTER_DTYPE_UINT8 : Int := 3

/-- `et_flutter_dtype_size` (`executorch_flutter_wrapper.c`): byte width of
a dtype; the `default` case of the switch returns 0. -/
def et_flutter_dtype_size (dtype : Int) : Nat :=
  if dtype = ET_FLUTTER_DTYPE_FLOAT32 then 4
  else if dtype = ET_FLUTTER_DTYPE_INT32 then 4
  else if dtype = ET_FLUTTER_DTYPE_INT8 then 1
  else if dtype = ET_FLUTTER_DTYPE_UINT8 then 1
  else 0

/-- `ETFlutterTensorShape`: `num_dims` is an `int32_t`; `dims` models the
fixed `int64_t dims[8]` array. -/
structure ETFlutterTensorShape where
  num_dims : Int
  dims : List Int
deriving DecidableEq, Repr

/-- Product loop shared by `et_flutter_shape_element_count` and
`et_flutter_tensor_data_size`: `size_t` accumulator starting at 1,
multiplied by `(size_t)dims[i]` for `i < n`, wrapping mod `2 ^ 64`. -/
def prodDims (dims : List Int) (n : Nat) : Nat :=
  ((List.range n).map (fun i => sizeTCast (dims.getD i 0))).foldl
    (fun a b => a * b % W) 1

/-- `et_flutter_shape_element_count` (`executorch_flutter_wrapper.c`):
0 for a NULL shape or `num_dims <= 0`, otherwise the wrapped product of the
first `num_dims` dimensions. -/
def et_flutter_shape_element_count (shape : Option ETFlutterTensorShape) : Nat :=
  match shape with
  | none => 0
  | some s => if s.num_dims ≤ 0 then 0 else prodDims s.dims s.num_dims.toNat

/-- `ETFlutterTensorData`: shape, dtype (raw enum value), data buffer
(`none` models a NULL pointer, `some bs` a buffer holding bytes `bs`),
stated byte length, and name (characters before the NUL). -/
structure ETFlutterTensorData where
  shape : ETFlutterTensorShape
  dtype : Int
  data : Option (List Nat)
  data_size : Nat
  name : List Char
deriving DecidableEq, Repr

/-- `et_flutter_tensor_data_size` (`tensor_utils.c`): 0 for NULL, otherwise
the wrapped product of the dimensions times the dtype's byte width (the
loop body never runs when `num_dims <= 0`, leaving the accumulator at 1). -/
def et_flutter_tensor_data_size (t : Option ETFlutterTensorData) : Nat :=
  match t with
  | none => 0
  | some tensor =>
      prodDims tensor.shape.dims tensor.shape.num_dims.toNat *
        et_flutter_dtype_size tensor.dtype % W

/-- `et_flutter_tensor_validate` (`tensor_utils.c`): NULL check, dimension
count check, per-dimension positivity check (first offending index wins),
data-pointer check, then size check; on success the error record is
cleared.  Returns the error code together with the updated error record
(the out-parameter). -/
def et_flutter_tensor_validate (tensor : Option ETFlutterTensorData)
    (error : ETFlutterError) : ETFlutterErrorCode × ETFlutterError :=
  match tensor with
  | none =>
      (.ET_FLUTTER_ERROR_INVALID_ARGUMENT,
       et_flutter_set_error error .ET_FLUTTER_ERROR_INVALID_ARGUMENT
         ("Tensor pointer is NULL".toList))
  | some t =>
      if t.shape.num_dims < 1 ∨ 8 < t.shape.num_dims then
        (.ET_FLUTTER_ERROR_VALIDATION,
         et_flutter_set_error error .ET_FLUTTER_ERROR_VALIDATION
           (("Invalid number of dimensions: " ++ toString t.shape.num_dims ++
             " (must be 1-8)").toList))
      else
        match (List.range t.shape.num_dims.toNat).find?
            (fun i => decide (t.shape.dims.getD i 0 ≤ 0)) with
        | some i =>
            (.ET_FLUTTER_ERROR_VALIDATION,
             et_flutter_set_error error .ET_FLUTTER_ERROR_VALIDATION
               (("Invalid dimension size at index " ++ toString i ++ ": " ++
                 toString (t.shape.dims.getD i 0) ++ " (must be > 0)").toList))
        | none =>
            match t.data with
            | none =>
                (.ET_FLUTTER_ERROR_INVALID_ARGUMENT,
                 et_flutter_set_error error .ET_FLUTTER_ERROR_INVALID_ARGUMENT
                   ("Tensor data pointer is NULL".toList))
            | some _ =>
                if t.data_size ≠ et_flutter_tensor_data_size (some t) then
                  (.ET_FLUTTER_ERROR_VALIDATION,
                   et_flutter_set_error error .ET_FLUTTER_ERROR_VALIDATION
                     (("Tensor data size mismatch: got " ++
                       toString t.data_size ++ " bytes, expected " ++
                       toString (et_flutter_tensor_data_size (some t)) ++
                       " bytes").toList))
                else
                  (.ET_FLUTTER_SUCCESS, et_flutter_clear_error error)

/-- `et_flutter_tensor_copy` (`tensor_utils.c`): NULL checks, validation of
the source only, then field-by-field copy into the destination; the data
bytes are copied (`memcpy` of `src->data_size` bytes) only when both data
pointers are non-NULL.  Returns the code, the updated destination, and the
updated error record. -/
def et_flutter_tensor_copy (src dst : Option ETFlutterTensorData)
    (error : ETFlutterError) :
    ETFlutterErrorCode × Option ETFlutterTensorData × ETFlutterError :=
  match src, dst with
  | none, _ =>
      (.ET_FLUTTER_ERROR_INVALID_ARGUMENT, dst,
       et_flutter_set_error error .ET_FLUTTER_ERROR_INVALID_ARGUMENT
         ("Source or destination tensor is NULL".toList))
  | some _, none =>
      (.ET_FLUTTER_ERROR_INVALID_ARGUMENT, dst,
       et_flutter_set_error error .ET_FLUTTER_ERROR_INVALID_ARGUMENT
         ("Source or destination tensor is NULL".toList))
  | some s, some d =>
      match et_flutter_tensor_validate (some s) error with
      | (.ET_FLUTTER_SUCCESS, _) =>
          let d1 := { d with shape := s.shape, dtype := s.dtype,
                             data_size := s.data_size }
          let d2 :=
            match d1.data, s.data with
            | some bd, some bs =>
                { d1 with data := some (bs.take s.data_size ++ bd.drop s.data_size) }
            | _, _ => d1
          let d3 :=
            if s.name ≠ [] then { d2 with name := s.name.take 63 }
            else { d2 with name := [] }
          (.ET_FLUTTER_SUCCESS, some d3, et_flutter_clear_error error)
      | (r, e1) => (r, some d, e1)

/-- Native scalar type tags (`executorch::runtime::ScalarType`); `SOther`
stands for any tag outside the four the wrapper maps. -/
inductive ScalarType where
  | SFloat
  | SInt
  | SChar
  | SByte
  | SOther
deriving DecidableEq, Repr

/-- Native engine tensor (`exec_aten::Tensor`): scalar type tag, the sizes
array (`SizesType`, an `int32_t` per dimension; `dim()` is its length) and
the backing byte buffer (`const_data_ptr`). -/
structure NativeTensor where
  scalar_type : ScalarType
  sizes : List Int
  bytes : List Nat
deriving DecidableEq, Repr

/-- Native engine value (`EValue`): a tensor, or any non-tensor payload. -/
inductive EValue where
  | tensor (t : NativeTensor)
  | nonTensor
deriving DecidableEq, Repr

/-- Heap blocks allocated by the output-conversion path, identified by the
output index they belong to: the descriptor struct and its data buffer. -/
inductive Block where
  | tstruct (i : Nat)
  | tdata (i : Nat)
deriving DecidableEq, Repr

/-- Allocation oracle: whether the `malloc` for output `i`'s struct and
data buffer succeeds.  Models out-of-memory nondeterminism explicitly. -/
structure AllocOracle where
  structOk : Nat → Bool
  dataOk : Nat → Bool

/-- `convert_to_executorch_tensor` (`executorch_flutter_wrapper.cpp`):
NULL checks, exhaustive dtype switch (unknown dtype fails), cast of each of
the first `num_dims` dimensions to the native `SizesType` (`int32_t`), and
a zero-copy tensor view aliasing the host buffer.  `none` models the
`Error::InvalidArgument` result. -/
def convert_to_executorch_tensor (tensor : Option ETFlutterTensorData) :
    Option NativeTensor :=
  match tensor with
  | none => none
  | some t =>
      match t.data with
      | none => none
      | some bs =>
          let st : Option ScalarType :=
            if t.dtype = ET_FLUTTER_DTYPE_FLOAT32 then some .SFloat
            else if t.dtype = ET_FLUTTER_DTYPE_INT32 then some .SInt
            else if t.dtype = ET_FLUTTER_DTYPE_INT8 then some .SChar
            else if t.dtype = ET_FLUTTER_DTYPE_UINT8 then some .SByte
            else none
          match st with
          | none => none
          | some sty =>
              some { scalar_type := sty,
                     sizes := (List.range t.shape.num_dims.toNat).map
                       (fun i => int32Cast (t.shape.dims.getD i 0)),
                     bytes := bs }

/-- Scalar-type switch of `convert_from_executorch_tensor`: the `default`
case frees the struct and returns NULL. -/
def mapScalarToDtype : ScalarType → Option Int
  | .SFloat => some ET_FLUTTER_DTYPE_FLOAT32
  | .SInt => some ET_FLUTTER_DTYPE_INT32
  | .SChar => some ET_FLUTTER_DTYPE_INT8
  | .SByte => some ET_FLUTTER_DTYPE_UINT8
  | .SOther => none

/-- `convert_from_executorch_tensor` (`executorch_flutter_wrapper.cpp`):
`malloc` of the descriptor struct (oracle-controlled), `memset` to zero,
scalar-type switch, shape copy clamped to 8 dims, byte-size recomputation
via `et_flutter_tensor_data_size`, `malloc` of the data buffer
(oracle-controlled) and deep `memcpy` of `data_size` bytes.  Returns the
descriptor (or `none` on any failure) together with the net-new live heap
blocks; every failure path frees what it allocated, so it contributes no
blocks. -/
def convert_from_executorch_tensor (oracle : AllocOracle) (i : Nat)
    (tensor : NativeTensor) : Option ETFlutterTensorData × List Block :=
  if oracle.structOk i = false then (none, [])
  else
    match mapScalarToDtype tensor.scalar_type with
    | none => (none, [])
    | some dt =>
        let nd : Int := int32Cast (tensor.sizes.length : Int)
        let dims : List Int := (List.range 8).map
          (fun j => if j < tensor.sizes.length then tensor.sizes.getD j 0 else 0)
        let shape : ETFlutterTensorShape := { num_dims := nd, dims := dims }
        let data_size := et_flutter_tensor_data_size
          (some { shape := shape, dtype := dt, data := none, data_size := 0,
                  name := [] })
        if oracle.dataOk i = false then (none, [])
        else
          (some { shape := shape, dtype := dt,
                  data := some (tensor.bytes.take data_size),
                  data_size := data_size, name := [] },
           [Block.tstruct i, Block.tdata i])

/-- `ETFlutterForwardInput`: declared input count (`int32_t`) and the fixed
array of 16 tensor pointers. -/
structure ETFlutterForwardInput where
  num_inputs : Int
  inputs : List (Option ETFlutterTensorData)
deriving Repr

/-- `ETFlutterForwardOutput`: error record, declared output count
(`int32_t`) and the fixed array of 16 output tensor pointers. -/
structure ETFlutterForwardOutput where
  error : ETFlutterError
  num_outputs : Int
  outputs : List (Option ETFlutterTensorData)
deriving DecidableEq, Repr

/-- Input conversion loop of `et_flutter_forward`: for each index in order,
convert the tensor; the first failure aborts with that index. -/
def convInputsAux (inputs : List (Option ETFlutterTensorData)) :
    List Nat → Except Nat (List EValue)
  | [] => .ok []
  | i :: rest =>
      match convert_to_executorch_tensor (inputs.getD i none) with
      | none => .error i
      | some t =>
          match convInputsAux inputs rest with
          | .error j => .error j
          | .ok ts => .ok (.tensor t :: ts)

/-- Live blocks contributed by the output slots at the given indices, in
index order: a populated slot owns its struct block then its data block. -/
def liveBlocks (slots : List (Option ETFlutterTensorData)) : List Nat → List Block
  | [] => []
  | j :: js =>
      (match slots.getD j none with
       | some _ => [Block.tstruct j, Block.tdata j]
       | none => []) ++ liveBlocks slots js

/-- Partial-failure cleanup loop of `et_flutter_forward`: for each earlier
index with a populated slot, free its data buffer then its struct. -/
def cleanupLoop (slots : List (Option ETFlutterTensorData)) :
    List Nat → List Block → List Block
  | [], live => live
  | j :: js, live =>
      match slots.getD j none with
      | some _ => cleanupLoop slots js ((live.erase (.tdata j)).erase (.tstruct j))
      | none => cleanupLoop slots js live

/-- Result of the output-conversion loop: completed slots and live blocks,
or the failing index with the (stale) slots and the post-cleanup blocks. -/
inductive ConvOutsResult where
  | ok (slots : List (Option ETFlutterTensorData)) (live : List Block)
  | fail (idx : Nat) (slots : List (Option ETFlutterTensorData)) (live : List Block)

/-- Output conversion loop of `et_flutter_forward`: iterates over the
native outputs while the index stays below `ET_FLUTTER_MAX_OUTPUTS` (16);
non-tensor values are skipped, a NULL conversion result triggers cleanup of
all earlier slots and aborts. -/
def convOutsAux (oracle : AllocOracle) :
    List EValue → Nat → List (Option ETFlutterTensorData) → List Block →
    ConvOutsResult
  | [], _, slots, live => .ok slots live
  | v :: rest, i, slots, live =>
      if i < 16 then
        match v with
        | .nonTensor => convOutsAux oracle rest (i + 1) slots live
        | .tensor t =>
            match convert_from_executorch_tensor oracle i t with
            | (some td, blocks) =>
                convOutsAux oracle rest (i + 1) (slots.set i (some td))
                  (live ++ blocks)
            | (none, _) =>
                .fail i slots (cleanupLoop slots (List.range i) live)
      else .ok slots live

/-- `et_flutter_forward` (`executorch_flutter_wrapper.cpp`): handle and
input checks, input conversion, engine invocation (the external
`module->forward`, passed in as a function from the input values to either
a native error code or the output values), then output conversion with
partial-failure cleanup.  Returns the output envelope together with the
live heap blocks allocated by this call. -/
def et_flutter_forward (oracle : AllocOracle)
    (engine : List EValue → Except Int (List EValue))
    (model_handle : Option Unit) (input : Option ETFlutterForwardInput) :
    ETFlutterForwardOutput × List Block :=
  let base : ETFlutterForwardOutput :=
    { error := { code := .ET_FLUTTER_SUCCESS, message := [] },
      num_outputs := 0, outputs := List.replicate 16 none }
  match model_handle with
  | none =>
      let e := et_flutter_set_error base.error .ET_FLUTTER_ERROR_INVALID_HANDLE
        ("model_handle is NULL".toList)
      ({ base with error := e }, [])
  | some _ =>
      match input with
      | none =>
          let e := et_flutter_set_error base.error
            .ET_FLUTTER_ERROR_INVALID_ARGUMENT
            ("input is NULL or has no tensors".toList)
          ({ base with error := e }, [])
      | some inp =>
          if inp.num_inputs ≤ 0 then
            let e := et_flutter_set_error base.error
              .ET_FLUTTER_ERROR_INVALID_ARGUMENT
              ("input is NULL or has no tensors".toList)
            ({ base with error := e }, [])
          else
            match convInputsAux inp.inputs (List.range inp.num_inputs.toNat) with
            | .error i =>
                let e := et_flutter_set_error base.error
                  .ET_FLUTTER_ERROR_VALIDATION
                  (("Failed to convert input tensor " ++ toString i).toList)
                ({ base with error := e }, [])
            | .ok evs =>
                match engine evs with
                | .error ec =>
                    let e := et_flutter_set_error base.error
                      .ET_FLUTTER_ERROR_INFERENCE
                      (("Forward pass failed: error code " ++ toString ec).toList)
                    ({ base with error := e }, [])
                | .ok outs =>
                    match convOutsAux oracle outs 0 (List.replicate 16 none) [] with
                    | .ok slots live =>
                        ({ base with num_outputs := int32Cast (outs.length : Int),
                                     outputs := slots }, live)
                    | .fail i slots live =>
                        let e := et_flutter_set_error base.error
                          .ET_FLUTTER_ERROR_MEMORY
                          (("Failed to allocate output tensor " ++
                            toString i).toList)
                        ({ base with error := e, num_outputs := 0,
                                     outputs := slots }, live)

/-- Free loop of `et_flutter_free_forward_output`: iterates `i` from 0 up
to `num_outputs`, reading `outputs[i]`.  The outputs array has exactly 16
slots, so reaching `i = 16` while the loop condition still holds is an
out-of-bounds read; that undefined behaviour is modelled as `none`. -/
def freeLoop (slots : List (Option ETFlutterTensorData)) :
    List Nat → List Block → Option (List Block)
  | [], live => some live
  | i :: rest, live =>
      if 16 ≤ i then none
      else
        match slots.getD i none with
        | none => freeLoop slots rest live
        | some td =>
            let live1 := if td.data.isSome then live.erase (.tdata i) else live
            freeLoop slots rest (live1.erase (.tstruct i))

/-- `et_flutter_free_forward_output` (`executorch_flutter_wrapper.cpp`):
NULL is a safe no-op; otherwise frees each output's data buffer then its
struct for `i < num_outputs` and resets the count to 0.  `none` models the
out-of-bounds access the loop performs when `num_outputs` exceeds the
16-slot array. -/
def et_flutter_free_forward_output (output : Option ETFlutterForwardOutput)
    (live : List Block) : Option (Option ETFlutterForwardOutput × List Block) :=
  match output with
  | none => some (none, live)
  | some o =>
      match freeLoop o.outputs (List.range o.num_outputs.toNat) live with
      | none => none
      | some live' => some (some { o with num_outputs := 0 }, live')

/-- One step of the output-conversion loop succeeds: non-tensor values are
skipped, tensor values must convert to a non-NULL descriptor. -/
def stepOk (oracle : AllocOracle) (i : Nat) : EValue → Bool
  | .nonTensor => true
  | .tensor t => (convert_from_executorch_tensor oracle i t).1.isSome

/-- Allocation oracle on which every `malloc` succeeds. -/
def allocAlwaysOk : AllocOracle := { structOk := fun _ => true, dataOk := fun _ => true }

/-- A one-element UInt8 native tensor. -/
def ntByte : NativeTensor := { scalar_type := .SByte, sizes := [1], bytes := [0] }

/-- An engine whose forward pass returns 17 tensor outputs. -/
def eng17 : List EValue → Except Int (List EValue) :=
  fun _ => .ok (List.replicate 17 (EValue.tensor ntByte))

/-- An engine whose forward pass returns two tensor outputs. -/
def engTwoTensors : List EValue → Except Int (List EValue) :=
  fun _ => .ok [EValue.tensor ntByte, EValue.tensor ntByte]

/-- An engine whose forward pass returns a tensor then a non-tensor. -/
def engMix : List EValue → Except Int (List EValue) :=
  fun _ => .ok [EValue.tensor ntByte, EValue.nonTensor]

/-- An allocation oracle whose struct `malloc` fails exactly for output 1. -/
def oracleFail1 : AllocOracle :=
  { structOk := fun i => decide (i ≠ 1), dataOk := fun _ => true }

/-! ### Concrete fixtures used by witnesses -/

/-- A cleared error record. -/
def e0 : ETFlutterError := { code := .ET_FLUTTER_SUCCESS, message := [] }

/-- A valid Float32 tensor: shape [2], 2 elements of 4 bytes. -/
def tGood : ETFlutterTensorData :=
  { shape := { num_dims := 1, dims := [2, 0, 0, 0, 0, 0, 0, 0] },
    dtype := ET_FLUTTER_DTYPE_FLOAT32,
    data := some [1, 2, 3, 4, 5, 6, 7, 8], data_size := 8, name := [] }

/-- A tensor whose dtype value 99 lies outside the enumeration, with a
well-formed shape, a non-NULL data pointer and `data_size = 0` (which
matches the zero expected size computed for the unknown dtype). -/
def tUnknownDtype : ETFlutterTensorData :=
  { shape := { num_dims := 1, dims := [1, 0, 0, 0, 0, 0, 0, 0] },
    dtype := 99, data := some [], data_size := 0, name := [] }


/-- A one-tensor forward input holding the valid Float32 tensor. -/
def inp1 : ETFlutterForwardInput := { num_inputs := 1, inputs := [some tGood] }

/-- Round trip of the two converters with the engine as an identity
pass-through: host descriptor to native tensor view, then native tensor
back to an owning host descriptor. -/
def roundTrip (oracle : AllocOracle) (i : Nat)
    (t : Option ETFlutterTensorData) : Option ETFlutterTensorData :=
  match convert_to_executorch_tensor t with
  | none => none
  | some nt => (convert_from_executorch_tensor oracle i nt).1

/-- An all-zero descriptor, used only as a default for `Option.getD`. -/
def tDefault : ETFlutterTensorData :=
  { shape := { num_dims := 0, dims := [] }, dtype := 0, data := none,
    data_size := 0, name := [] }

/-- A validator-accepted UInt8 tensor whose single dimension 2^31 does not
fit the native `SizesType` (`int32_t`): shape [2^31], dtype UInt8,
`data_size = 2^31` (which matches the recomputed expected size), non-NULL
data pointer. -/
def tHuge : ETFlutterTensorData :=
  { shape := { num_dims := 1, dims := [2 ^ 31, 0, 0, 0, 0, 0, 0, 0] },
    dtype := ET_FLUTTER_DTYPE_UINT8, data := some [], data_size := 2 ^ 31,
    name := [] }

/-! ### Helper lemmas about validation -/


/-- Characterization of the code returned by `et_flutter_tensor_validate`
on a non-NULL tensor, as a nested conditional mirroring the check order. -/
theorem validate_code_eq (t : ETFlutterTensorData) (e : ETFlutterError) :
    (et_flutter_tensor_validate (some t) e).1 =
      if t.shape.num_dims < 1 ∨ 8 < t.shape.num_dims then
        .ET_FLUTTER_ERROR_VALIDATION
      else if ∃ i < t.shape.num_dims.toNat, t.shape.dims.getD i 0 ≤ 0 then
        .ET_FLUTTER_ERROR_VALIDATION
      else if t.data = none then .ET_FLUTTER_ERROR_INVALID_ARGUMENT
      else if t.data_size ≠ et_flutter_tensor_data_size (some t) then
        .ET_FLUTTER_ERROR_VALIDATION
      else .ET_FLUTTER_SUCCESS := by
  unfold et_flutter_tensor_validate
  by_cases h1 : t.shape.num_dims < 1 ∨ 8 < t.shape.num_dims
  · simp [h1]
  · dsimp only
    rw [if_neg h1, if_neg h1]
    rcases hf : (List.range t.shape.num_dims.toNat).find?
        (fun i => decide (t.shape.dims.getD i 0 ≤ 0)) with _ | j
    · have hall := List.find?_eq_none.mp hf
      simp only [List.mem_range, decide_eq_true_eq] at hall
      have hnone : ¬ ∃ i < t.shape.num_dims.toNat, t.shape.dims.getD i 0 ≤ 0 := by
        rintro ⟨i, hi, hle⟩
        exact hall i hi hle
      rw [if_neg hnone]
      rcases hd : t.data with _ | bs
      · simp
      · simp only
        by_cases h5 : t.data_size = et_flutter_tensor_data_size (some t)
        · simp [h5]
        · simp [h5]
    · have hj := List.find?_some hf
      have hjmem := List.mem_range.mp (List.mem_of_find?_eq_some hf)
      simp only [decide_eq_true_eq] at hj
      have hsome : ∃ i < t.shape.num_dims.toNat, t.shape.dims.getD i 0 ≤ 0 :=
        ⟨j, hjmem, hj⟩
      rw [if_pos hsome]

/-- Validation succeeds exactly on structurally well-formed tensors whose
stated size matches the recomputed size. -/
theorem validate_success_iff (t : ETFlutterTensorData) (e : ETFlutterError) :
    (et_flutter_tensor_validate (some t) e).1 = .ET_FLUTTER_SUCCESS ↔
      (1 ≤ t.shape.num_dims ∧ t.shape.num_dims ≤ 8 ∧
       (∀ i < t.shape.num_dims.toNat, 0 < t.shape.dims.getD i 0) ∧
       t.data ≠ none ∧
       t.data_size = et_flutter_tensor_data_size (some t)) := by
  rw [validate_code_eq]
  split_ifs with h1 h2 h3 h4
  · simp only [false_iff]
    rintro ⟨ha, hb, -, -, -⟩
    rcases h1 with h1 | h1 <;> omega
  · simp only [false_iff]
    rintro ⟨-, -, hpos, -, -⟩
    rcases h2 with ⟨i, hi, hle⟩
    exact absurd (hpos i hi) (by omega)
  · simp only [false_iff]
    rintro ⟨-, -, -, hd, -⟩
    exact hd h3
  · simp only [false_iff]
    rintro ⟨-, -, -, -, hs⟩
    exact h4 hs
  · simp only [true_iff]
    push_neg at h1 h4
    refine ⟨by omega, by omega, ?_, h3, h4⟩
    intro i hi
    by_contra hle
    exact h2 ⟨i, hi, by omega⟩

/-! ### Claim theorems -/

/-- C3: `et_flutter_tensor_validate` checks, in order: NULL tensor
(INVALID_ARGUMENT), `num_dims` outside [1,8] (VALIDATION), any
non-positive dimension (VALIDATION), NULL data pointer (INVALID_ARGUMENT),
then a `data_size` mismatch against the recomputed size (VALIDATION); each
earlier rejection fires regardless of the later fields, so structural
dimension checks precede the size check, and a fully well-formed tensor is
accepted. -/
theorem claim_C3_validate_order (t : ETFlutterTensorData) (e : ETFlutterError) :
    (et_flutter_tensor_validate none e).1 = .ET_FLUTTER_ERROR_INVALID_ARGUMENT ∧
    ((t.shape.num_dims < 1 ∨ 8 < t.shape.num_dims) →
      (et_flutter_tensor_validate (some t) e).1 = .ET_FLUTTER_ERROR_VALIDATION) ∧
    (1 ≤ t.shape.num_dims → t.shape.num_dims ≤ 8 →
      (∃ i < t.shape.num_dims.toNat, t.shape.dims.getD i 0 ≤ 0) →
      (et_flutter_tensor_validate (some t) e).1 = .ET_FLUTTER_ERROR_VALIDATION) ∧
    (1 ≤ t.shape.num_dims → t.shape.num_dims ≤ 8 →
      (∀ i < t.shape.num_dims.toNat, 0 < t.shape.dims.getD i 0) →
      t.data = none →
      (et_flutter_tensor_validate (some t) e).1 =
        .ET_FLUTTER_ERROR_INVALID_ARGUMENT) ∧
    (1 ≤ t.shape.num_dims → t.shape.num_dims ≤ 8 →
      (∀ i < t.shape.num_dims.toNat, 0 < t.shape.dims.getD i 0) →
      t.data ≠ none →
      t.data_size ≠ et_flutter_tensor_data_size (some t) →
      (et_flutter_tensor_validate (some t) e).1 = .ET_FLUTTER_ERROR_VALIDATION) ∧
    (1 ≤ t.shape.num_dims → t.shape.num_dims ≤ 8 →
      (∀ i < t.shape.num_dims.toNat, 0 < t.shape.dims.getD i 0) →
      t.data ≠ none →
      t.data_size = et_flutter_tensor_data_size (some t) →
      (et_flutter_tensor_validate (some t) e).1 = .ET_FLUTTER_SUCCESS) := by
  refine ⟨rfl, ?_, ?_, ?_, ?_, ?_⟩
  · intro h
    rw [validate_code_eq, if_pos h]
  · intro h1 h2 hex
    rw [validate_code_eq, if_neg (by omega), if_pos hex]
  · intro h1 h2 hpos hd
    rw [validate_code_eq, if_neg (by omega), if_neg ?hnp, if_pos hd]
    case hnp =>
      rintro ⟨i, hi, hle⟩
      exact absurd (hpos i hi) (by omega)
  · intro h1 h2 hpos hd hs
    rw [validate_code_eq, if_neg (by omega), if_neg ?hnp2, if_neg hd, if_pos hs]
    case hnp2 =>
      rintro ⟨i, hi, hle⟩
      exact absurd (hpos i hi) (by omega)
  · intro h1 h2 hpos hd hs
    exact (validate_success_iff t e).mpr ⟨h1, h2, hpos, hd, hs⟩

/-- C3 witness: the rejections and the acceptance at concrete tensors:
`num_dims = 0`, `num_dims = 9`, a zero dimension, a NULL data pointer, a
size off by one, and a fully valid tensor. -/
theorem claim_C3_witness :
    (et_flutter_tensor_validate
        (some { tGood with shape := { num_dims := 0, dims := [0, 0, 0, 0, 0, 0, 0, 0] } })
        e0).1 = .ET_FLUTTER_ERROR_VALIDATION ∧
    (et_flutter_tensor_validate
        (some { tGood with shape := { num_dims := 9, dims := [1, 1, 1, 1, 1, 1, 1, 1] } })
        e0).1 = .ET_FLUTTER_ERROR_VALIDATION ∧
    (et_flutter_tensor_validate
        (some { tGood with shape := { num_dims := 2, dims := [2, 0, 0, 0, 0, 0, 0, 0] } })
        e0).1 = .ET_FLUTTER_ERROR_VALIDATION ∧
    (et_flutter_tensor_validate (some { tGood with data := none }) e0).1 =
      .ET_FLUTTER_ERROR_INVALID_ARGUMENT ∧
    (et_flutter_tensor_validate (some { tGood with data_size := 9 }) e0).1 =
      .ET_FLUTTER_ERROR_VALIDATION ∧
    (et_flutter_tensor_validate (some tGood) e0).1 = .ET_FLUTTER_SUCCESS := by
  refine ⟨?_, ?_, ?_, ?_, ?_, ?_⟩
  · exact (claim_C3_validate_order
      { tGood with shape := { num_dims := 0, dims := [0, 0, 0, 0, 0, 0, 0, 0] } }
      e0).2.1 (by decide)
  · exact (claim_C3_validate_order
      { tGood with shape := { num_dims := 9, dims := [1, 1, 1, 1, 1, 1, 1, 1] } }
      e0).2.1 (by decide)
  · exact (claim_C3_validate_order
      { tGood with shape := { num_dims := 2, dims := [2, 0, 0, 0, 0, 0, 0, 0] } }
      e0).2.2.1 (by decide) (by decide) (by decide)
  · exact (claim_C3_validate_order { tGood with data := none } e0).2.2.2.1
      (by decide) (by decide) (by decide) (by decide)
  · exact (claim_C3_validate_order { tGood with data_size := 9 } e0).2.2.2.2.1
      (by decide) (by decide) (by decide) (by decide) (by decide)
  · exact (claim_C3_validate_order tGood e0).2.2.2.2.2
      (by decide) (by decide) (by decide) (by decide) (by decide)

/-- C4: the code contradicts the claim (and the spec's stated intent): a
tensor with the unknown dtype value 99, a well-formed shape, a non-NULL
data pointer and `data_size = 0` is ACCEPTED by
`et_flutter_tensor_validate`, precisely because `et_flutter_dtype_size`'s
default case sizes the unknown dtype as zero bytes and the stated
`data_size` matches that zero expected size. -/
theorem claim_C4_unknown_dtype_accepted :
    et_flutter_dtype_size 99 = 0 ∧
    et_flutter_tensor_data_size (some tUnknownDtype) = 0 ∧
    (et_flutter_tensor_validate (some tUnknownDtype) e0).1 =
      .ET_FLUTTER_SUCCESS := by
  refine ⟨rfl, by decide, by decide⟩

/-- C8 counterexample: `et_flutter_set_error` called with a non-SUCCESS
code and an empty formatted message leaves the record with a non-SUCCESS
code and an empty message, so the claim's "no operation, for any
arguments" invariant is false of the code. -/
theorem claim_C8_counterexample :
    (et_flutter_set_error e0 .ET_FLUTTER_ERROR_VALIDATION []).code ≠
      .ET_FLUTTER_SUCCESS ∧
    (et_flutter_set_error e0 .ET_FLUTTER_ERROR_VALIDATION []).message = [] := by
  decide

/-- C8 (amended): `et_flutter_clear_error` always yields SUCCESS with an
empty message; `et_flutter_set_error` always stores the given code and a
truncated message of at most 255 characters; and whenever `set` is given a
non-SUCCESS code together with a non-empty message — as at every call site
in this repository — the resulting record has a non-SUCCESS code and a
non-empty message.  `set` itself does not enforce the invariant for
arbitrary arguments. -/
theorem claim_C8_error_record_ops (e : ETFlutterError)
    (c : ETFlutterErrorCode) (msg : List Char) :
    (et_flutter_clear_error e).code = .ET_FLUTTER_SUCCESS ∧
    (et_flutter_clear_error e).message = [] ∧
    (et_flutter_set_error e c msg).code = c ∧
    (et_flutter_set_error e c msg).message.length ≤ 255 ∧
    (c ≠ .ET_FLUTTER_SUCCESS → msg ≠ [] →
      (et_flutter_set_error e c msg).code ≠ .ET_FLUTTER_SUCCESS ∧
      (et_flutter_set_error e c msg).message ≠ []) := by
  refine ⟨rfl, rfl, rfl, ?_, ?_⟩
  · simp [et_flutter_set_error]
  · intro hc hm
    refine ⟨hc, ?_⟩
    rcases msg with _ | ⟨a, tl⟩
    · exact absurd rfl hm
    · simp [et_flutter_set_error]

/-- C8 witness: the amended statement instantiated at a concrete record,
the VALIDATION code and a one-character message. -/
theorem claim_C8_witness :
    (et_flutter_set_error e0 .ET_FLUTTER_ERROR_VALIDATION ['x']).code ≠
      .ET_FLUTTER_SUCCESS ∧
    (et_flutter_set_error e0 .ET_FLUTTER_ERROR_VALIDATION ['x']).message ≠ [] := by
  exact (claim_C8_error_record_ops e0 .ET_FLUTTER_ERROR_VALIDATION ['x']).2.2.2.2
    (by decide) (by decide)

/-! ### Arithmetic helpers for the size formula -/

/-- Exact (unwrapped) element count of the first `n` dimensions. -/
def exactElemCount (dims : List Int) (n : Nat) : Nat :=
  (((List.range n).map (fun i => (dims.getD i 0).toNat))).prod

theorem foldl_mulMod (l : List Nat) (a : Nat) :
    l.foldl (fun x y => x * y % W) (a % W) = l.foldl (· * ·) a % W := by
  induction l generalizing a with
  | nil => rfl
  | cons b tl ih =>
      have hstep : a % W * b % W = a * b % W := by
        conv_rhs => rw [Nat.mul_mod]
        rw [Nat.mul_mod (a % W) b]
        simp [Nat.mod_mod_of_dvd]
      simp only [List.foldl_cons, hstep, ih]

theorem prodDims_eq_exact_mod (dims : List Int) (n : Nat)
    (h : ∀ i < n, 0 ≤ dims.getD i 0 ∧ dims.getD i 0 < 2 ^ 64) :
    prodDims dims n = exactElemCount dims n % W := by
  unfold prodDims exactElemCount
  have hmap : (List.range n).map (fun i => sizeTCast (dims.getD i 0)) =
      (List.range n).map (fun i => (dims.getD i 0).toNat) := by
    refine List.map_congr_left ?_
    intro i hi
    have hi' := List.mem_range.mp hi
    obtain ⟨h0, h64⟩ := h i hi'
    unfold sizeTCast
    rw [Int.emod_eq_of_lt h0 (by exact_mod_cast h64)]
  rw [hmap]
  have := foldl_mulMod ((List.range n).map (fun i => (dims.getD i 0).toNat)) 1
  rw [Nat.mod_eq_of_lt (by norm_num [W])] at this
  rw [this, List.prod_eq_foldl]

/-- C7: the concrete scenario — shape [1,3,224,224] with Float32 gives
element count 150528, dtype size 4 and expected data size 602112 — and, in
general, for a shape with dims in range, a supported dtype and no `size_t`
overflow, validation accepts exactly the `data_size` equal to
`elementCount(shape) * dtypeSize(dtype)`. -/
theorem claim_C7_size_formula :
    et_flutter_shape_element_count
      (some { num_dims := 4, dims := [1, 3, 224, 224, 0, 0, 0, 0] }) = 150528 ∧
    et_flutter_dtype_size ET_FLUTTER_DTYPE_FLOAT32 = 4 ∧
    et_flutter_tensor_data_size
      (some { shape := { num_dims := 4, dims := [1, 3, 224, 224, 0, 0, 0, 0] },
              dtype := ET_FLUTTER_DTYPE_FLOAT32, data := none, data_size := 0,
              name := [] }) = 602112 ∧
    ∀ (t : ETFlutterTensorData) (e : ETFlutterError),
      1 ≤ t.shape.num_dims → t.shape.num_dims ≤ 8 →
      (∀ i < t.shape.num_dims.toNat,
        0 < t.shape.dims.getD i 0 ∧ t.shape.dims.getD i 0 < 2 ^ 63) →
      (t.dtype = ET_FLUTTER_DTYPE_FLOAT32 ∨ t.dtype = ET_FLUTTER_DTYPE_INT32 ∨
       t.dtype = ET_FLUTTER_DTYPE_INT8 ∨ t.dtype = ET_FLUTTER_DTYPE_UINT8) →
      exactElemCount t.shape.dims t.shape.num_dims.toNat *
        et_flutter_dtype_size t.dtype < W →
      t.data ≠ none →
      ((et_flutter_tensor_validate (some t) e).1 = .ET_FLUTTER_SUCCESS ↔
        t.data_size =
          et_flutter_shape_element_count (some t.shape) *
            et_flutter_dtype_size t.dtype) := by
  refine ⟨by decide, rfl, by decide, ?_⟩
  intro t e h1 h2 hdims hdt hov hdata
  have hsz1 : 1 ≤ et_flutter_dtype_size t.dtype := by
    rcases hdt with h | h | h | h <;> simp [h, et_flutter_dtype_size,
      ET_FLUTTER_DTYPE_FLOAT32, ET_FLUTTER_DTYPE_INT32, ET_FLUTTER_DTYPE_INT8,
      ET_FLUTTER_DTYPE_UINT8]
  have hb : ∀ i < t.shape.num_dims.toNat,
      0 ≤ t.shape.dims.getD i 0 ∧ t.shape.dims.getD i 0 < 2 ^ 64 := by
    intro i hi
    obtain ⟨hp, hu⟩ := hdims i hi
    exact ⟨hp.le, by omega⟩
  have hp := prodDims_eq_exact_mod t.shape.dims t.shape.num_dims.toNat hb
  have hlt : exactElemCount t.shape.dims t.shape.num_dims.toNat < W :=
    lt_of_le_of_lt (Nat.le_mul_of_pos_right _ hsz1) hov
  have hpp : prodDims t.shape.dims t.shape.num_dims.toNat =
      exactElemCount t.shape.dims t.shape.num_dims.toNat :=
    hp.trans (Nat.mod_eq_of_lt hlt)
  have hds : et_flutter_tensor_data_size (some t) =
      exactElemCount t.shape.dims t.shape.num_dims.toNat *
        et_flutter_dtype_size t.dtype := by
    show prodDims t.shape.dims t.shape.num_dims.toNat *
        et_flutter_dtype_size t.dtype % W = _
    rw [hpp]
    exact Nat.mod_eq_of_lt hov
  have hec : et_flutter_shape_element_count (some t.shape) =
      exactElemCount t.shape.dims t.shape.num_dims.toNat := by
    show (if t.shape.num_dims ≤ 0 then 0
          else prodDims t.shape.dims t.shape.num_dims.toNat) = _
    rw [if_neg (by omega)]
    exact hpp
  rw [validate_success_iff]
  constructor
  · rintro ⟨-, -, -, -, h5⟩
    rw [h5, hds, hec]
  · intro hsz
    refine ⟨h1, h2, fun i hi => (hdims i hi).1, hdata, ?_⟩
    rw [hds, ← hec]
    exact hsz

/-- C7 witness: the general size formula instantiated at the concrete
valid Float32 tensor of shape [2]. -/
theorem claim_C7_witness :
    (et_flutter_tensor_validate (some tGood) e0).1 = .ET_FLUTTER_SUCCESS ↔
      tGood.data_size =
        et_flutter_shape_element_count (some tGood.shape) *
          et_flutter_dtype_size tGood.dtype := by
  exact claim_C7_size_formula.2.2.2 tGood e0 (by decide) (by decide) (by decide)
    (by decide) (by decide) (by decide)

/-- C10: `et_flutter_tensor_copy` validates only the source: for every
valid source tensor and every destination struct it returns SUCCESS and
copies the shape, dtype, data_size and name fields, but it copies data
bytes only when the destination's data pointer is non-NULL — with a NULL
destination buffer it still returns SUCCESS with no bytes copied. -/
theorem claim_C10_copy_validates_only_source (s d : ETFlutterTensorData)
    (e : ETFlutterError)
    (hv : (et_flutter_tensor_validate (some s) e).1 = .ET_FLUTTER_SUCCESS) :
    ∃ d', et_flutter_tensor_copy (some s) (some d) e =
        (.ET_FLUTTER_SUCCESS, some d', et_flutter_clear_error e) ∧
      d'.shape = s.shape ∧ d'.dtype = s.dtype ∧ d'.data_size = s.data_size ∧
      d'.name = (if s.name = [] then [] else s.name.take 63) ∧
      (d.data = none → d'.data = none) ∧
      (∀ bd bs, d.data = some bd → s.data = some bs →
        d'.data = some (bs.take s.data_size ++ bd.drop s.data_size)) := by
  have hsd : s.data ≠ none := ((validate_success_iff s e).mp hv).2.2.2.1
  rcases hval : et_flutter_tensor_validate (some s) e with ⟨c, e1⟩
  have hc : c = .ET_FLUTTER_SUCCESS := by
    rw [hval] at hv
    exact hv
  subst hc
  unfold et_flutter_tensor_copy
  dsimp only
  rw [hval]
  rcases hbs : s.data with _ | bs
  · exact absurd hbs hsd
  rcases hdd : d.data with _ | bd
  · by_cases hn : s.name = []
    · refine ⟨{ shape := s.shape, dtype := s.dtype, data := none,
                data_size := s.data_size, name := [] }, ?_, rfl, rfl, rfl, ?_, ?_, ?_⟩
      · simp [hbs, hdd, hn]
      · simp [hn]
      · intro h0
        rfl
      · intro bd0 bs0 hbd0 hbs0
        exact Option.noConfusion hbd0
    · refine ⟨{ shape := s.shape, dtype := s.dtype, data := none,
                data_size := s.data_size, name := s.name.take 63 }, ?_, rfl, rfl,
          rfl, ?_, ?_, ?_⟩
      · simp [hbs, hdd, hn]
      · simp [hn]
      · intro h0
        rfl
      · intro bd0 bs0 hbd0 hbs0
        exact Option.noConfusion hbd0
  · by_cases hn : s.name = []
    · refine ⟨{ shape := s.shape, dtype := s.dtype,
                data := some (bs.take s.data_size ++ bd.drop s.data_size),
                data_size := s.data_size, name := [] }, ?_, rfl, rfl, rfl, ?_, ?_, ?_⟩
      · simp [hbs, hdd, hn]
      · simp [hn]
      · intro h0
        exact Option.noConfusion h0
      · intro bd0 bs0 hbd0 hbs0
        injection hbd0 with hbd1
        injection hbs0 with hbs1
        subst hbd1
        subst hbs1
        rfl
    · refine ⟨{ shape := s.shape, dtype := s.dtype,
                data := some (bs.take s.data_size ++ bd.drop s.data_size),
                data_size := s.data_size, name := s.name.take 63 }, ?_, rfl, rfl,
          rfl, ?_, ?_, ?_⟩
      · simp [hbs, hdd, hn]
      · simp [hn]
      · intro h0
        exact Option.noConfusion h0
      · intro bd0 bs0 hbd0 hbs0
        injection hbd0 with hbd1
        injection hbs0 with hbs1
        subst hbd1
        subst hbs1
        rfl

/-- C10 witness: copying the valid tensor into a destination whose data
pointer is NULL succeeds, and the destination data stays NULL. -/
theorem claim_C10_witness :
    (et_flutter_tensor_copy (some tGood)
      (some { shape := { num_dims := 1, dims := [9, 0, 0, 0, 0, 0, 0, 0] },
              dtype := ET_FLUTTER_DTYPE_UINT8, data := none, data_size := 0,
              name := ['z'] }) e0).1 = .ET_FLUTTER_SUCCESS := by
  obtain ⟨d', heq, -⟩ := claim_C10_copy_validates_only_source tGood
    { shape := { num_dims := 1, dims := [9, 0, 0, 0, 0, 0, 0, 0] },
      dtype := ET_FLUTTER_DTYPE_UINT8, data := none, data_size := 0,
      name := ['z'] } e0 (by decide)
  rw [heq]

/-- C6: `et_flutter_forward` with a NULL model handle returns
INVALID_HANDLE with zero outputs; with a valid handle and a NULL input
structure, or an input count of zero or negative, it returns
INVALID_ARGUMENT with zero outputs — and each of these rejections is
decided before the engine is consulted (the result is identical for any
two engines and any two allocation oracles). -/
theorem claim_C6_forward_rejections (oracle oracle2 : AllocOracle)
    (engine engine2 : List EValue → Except Int (List EValue))
    (input : Option ETFlutterForwardInput) (inp : ETFlutterForwardInput) :
    ((et_flutter_forward oracle engine none input).1.error.code =
        .ET_FLUTTER_ERROR_INVALID_HANDLE ∧
      (et_flutter_forward oracle engine none input).1.num_outputs = 0 ∧
      et_flutter_forward oracle engine none input =
        et_flutter_forward oracle2 engine2 none input) ∧
    ((et_flutter_forward oracle engine (some ()) none).1.error.code =
        .ET_FLUTTER_ERROR_INVALID_ARGUMENT ∧
      (et_flutter_forward oracle engine (some ()) none).1.num_outputs = 0 ∧
      et_flutter_forward oracle engine (some ()) none =
        et_flutter_forward oracle2 engine2 (some ()) none) ∧
    (inp.num_inputs ≤ 0 →
      (et_flutter_forward oracle engine (some ()) (some inp)).1.error.code =
        .ET_FLUTTER_ERROR_INVALID_ARGUMENT ∧
      (et_flutter_forward oracle engine (some ()) (some inp)).1.num_outputs = 0 ∧
      et_flutter_forward oracle engine (some ()) (some inp) =
        et_flutter_forward oracle2 engine2 (some ()) (some inp)) := by
  refine ⟨⟨rfl, rfl, rfl⟩, ⟨rfl, rfl, rfl⟩, ?_⟩
  intro hle
  refine ⟨?_, ?_, ?_⟩ <;> simp [et_flutter_forward, hle, et_flutter_set_error]

/-- C6 witness: the rejections at a concrete empty input set and two
observably different engines. -/
theorem claim_C6_witness :
    (et_flutter_forward { structOk := fun _ => true, dataOk := fun _ => true }
        (fun _ => .ok []) (some ())
        (some { num_inputs := 0, inputs := [] })).1.error.code =
      .ET_FLUTTER_ERROR_INVALID_ARGUMENT := by
  exact ((claim_C6_forward_rejections
    { structOk := fun _ => true, dataOk := fun _ => true }
    { structOk := fun _ => true, dataOk := fun _ => true }
    (fun _ => .ok []) (fun _ => .error 1) none
    { num_inputs := 0, inputs := [] }).2.2 (by decide)).1

/-! ### List access helpers -/

theorem getD_map_range (k j : Nat) (f : Nat → Int) (d : Int) :
    ((List.range k).map f).getD j d = if j < k then f j else d := by
  by_cases h : j < k
  · rw [if_pos h, List.getD_eq_getElem?_getD, List.getElem?_map,
      List.getElem?_range h]
    rfl
  · rw [if_neg h, List.getD_eq_getElem?_getD, List.getElem?_eq_none]
    · rfl
    · simp only [List.length_map, List.length_range]
      omega

theorem getD_set_ne {α : Type} (l : List α) (i j : Nat) (a d : α) (h : i ≠ j) :
    (l.set i a).getD j d = l.getD j d := by
  rw [List.getD_eq_getElem?_getD, List.getD_eq_getElem?_getD,
    List.getElem?_set_ne h]

theorem getD_set_self {α : Type} (l : List α) (i : Nat) (a d : α)
    (h : i < l.length) :
    (l.set i a).getD i d = a := by
  rw [List.getD_eq_getElem?_getD, List.getElem?_set_self h]
  rfl

theorem getD_replicate_none {α : Type} (n j : Nat) :
    (List.replicate n (none : Option α)).getD j none = none := by
  rw [List.getD_eq_getElem?_getD, List.getElem?_replicate]
  by_cases h : j < n <;> simp [h]

/-! ### Live-block accounting -/

theorem liveBlocks_append (slots : List (Option ETFlutterTensorData))
    (js ks : List Nat) :
    liveBlocks slots (js ++ ks) = liveBlocks slots js ++ liveBlocks slots ks := by
  induction js with
  | nil => rfl
  | cons j tl ih =>
      simp only [List.cons_append, liveBlocks, List.append_eq, ih,
        List.append_assoc]

theorem liveBlocks_congr (slots1 slots2 : List (Option ETFlutterTensorData))
    (js : List Nat)
    (h : ∀ j ∈ js, slots1.getD j none = slots2.getD j none) :
    liveBlocks slots1 js = liveBlocks slots2 js := by
  induction js with
  | nil => rfl
  | cons j tl ih =>
      have hj := h j (List.mem_cons_self j tl)
      have htl := ih (fun x hx => h x (List.mem_cons_of_mem j hx))
      simp only [liveBlocks, hj, htl]

theorem cleanupLoop_liveBlocks (slots : List (Option ETFlutterTensorData))
    (js : List Nat) :
    cleanupLoop slots js (liveBlocks slots js) = [] := by
  induction js with
  | nil => rfl
  | cons j tl ih =>
      cases h : slots.getD j none with
      | none =>
          simp only [liveBlocks, cleanupLoop, h, List.nil_append]
          exact ih
      | some td =>
          have herase :
              ((Block.tstruct j :: Block.tdata j :: liveBlocks slots tl).erase
                  (Block.tdata j)).erase (Block.tstruct j) =
                liveBlocks slots tl := by
            simp [List.erase_cons]
          simp only [liveBlocks, cleanupLoop, h, List.cons_append,
            List.nil_append, herase]
          exact ih

/-! ### Conversion-result helpers -/

theorem convert_from_structFail (oracle : AllocOracle) (i : Nat)
    (t : NativeTensor) (h : oracle.structOk i = false) :
    convert_from_executorch_tensor oracle i t = (none, []) := by
  unfold convert_from_executorch_tensor
  rw [if_pos h]

theorem convert_from_isSome_eq (oracle : AllocOracle) (i : Nat)
    (t : NativeTensor)
    (h : (convert_from_executorch_tensor oracle i t).1.isSome = true) :
    ∃ td, convert_from_executorch_tensor oracle i t =
      (some td, [Block.tstruct i, Block.tdata i]) := by
  unfold convert_from_executorch_tensor at h ⊢
  by_cases h1 : oracle.structOk i = false
  · rw [if_pos h1] at h
    simp at h
  · rw [if_neg h1] at h ⊢
    cases hm : mapScalarToDtype t.scalar_type with
    | none =>
        rw [hm] at h
        simp at h
    | some dt =>
        rw [hm] at h
        dsimp only at h ⊢
        by_cases h2 : oracle.dataOk i = false
        · rw [if_pos h2] at h
          simp at h
        · rw [if_neg h2] at h ⊢
          exact ⟨_, rfl⟩

/-! ### Output-conversion loop lemmas -/

theorem convOutsAux_ok (oracle : AllocOracle) (outs : List EValue) :
    ∀ (i : Nat) (slots : List (Option ETFlutterTensorData)) (live : List Block),
    slots.length = 16 →
    (∀ m, m < outs.length → i + m < 16 →
      stepOk oracle (i + m) (outs.getD m .nonTensor) = true) →
    ∃ slots' live', convOutsAux oracle outs i slots live = .ok slots' live' ∧
      (∀ j, j < i → slots'.getD j none = slots.getD j none) ∧
      (∀ m, m < outs.length → i + m < 16 →
        outs.getD m .nonTensor = .nonTensor →
        slots'.getD (i + m) none = slots.getD (i + m) none) := by
  induction outs with
  | nil =>
      intro i slots live hlen h
      exact ⟨slots, live, rfl, fun j _ => rfl,
        fun m hm => absurd hm (Nat.not_lt_zero m)⟩
  | cons v rest ih =>
      intro i slots live hlen h
      by_cases hi : i < 16
      · have h' : ∀ m, m < rest.length → (i + 1) + m < 16 →
            stepOk oracle ((i + 1) + m) (rest.getD m .nonTensor) = true := by
          intro m hm hlt
          have hstep := h (m + 1) (by simpa using Nat.succ_lt_succ hm) (by omega)
          have harr : i + (m + 1) = (i + 1) + m := by omega
          rw [harr] at hstep
          simpa using hstep
        cases hv : v with
        | nonTensor =>
            obtain ⟨slots', live', heq, hlow, hnt⟩ := ih (i + 1) slots live hlen h'
            refine ⟨slots', live', ?_, ?_, ?_⟩
            · simp only [convOutsAux, if_pos hi]
              exact heq
            · exact fun j hj => hlow j (by omega)
            · intro m hm hlt hveq
              cases m with
              | zero => simpa using hlow i (by omega)
              | succ mq =>
                  have hveq' : rest.getD mq .nonTensor = .nonTensor := by
                    simpa using hveq
                  have hres := hnt mq (by
                    have : mq + 1 < rest.length + 1 := by simpa using hm
                    omega) (by omega) hveq'
                  have harr : (i + 1) + mq = i + (mq + 1) := by omega
                  rw [harr] at hres
                  exact hres
        | tensor t =>
            have hstep := h 0 (by simp) (by omega)
            rw [List.getD_cons_zero] at hstep
            rw [hv] at hstep
            have hsome : (convert_from_executorch_tensor oracle i t).1.isSome =
                true := by
              simpa [stepOk] using hstep
            obtain ⟨td, hconv⟩ := convert_from_isSome_eq oracle i t hsome
            obtain ⟨slots', live', heq, hlow, hnt⟩ :=
              ih (i + 1) (slots.set i (some td))
                (live ++ [Block.tstruct i, Block.tdata i]) (by simpa using hlen) h'
            refine ⟨slots', live', ?_, ?_, ?_⟩
            · simp only [convOutsAux, if_pos hi, hconv]
              exact heq
            · intro j hj
              rw [hlow j (by omega), getD_set_ne _ _ _ _ _ (by omega)]
            · intro m hm hlt hveq
              cases m with
              | zero =>
                  rw [List.getD_cons_zero] at hveq
                  exact EValue.noConfusion hveq
              | succ mq =>
                  have hveq' : rest.getD mq .nonTensor = .nonTensor := by
                    simpa using hveq
                  have hres := hnt mq (by
                    have : mq + 1 < rest.length + 1 := by simpa using hm
                    omega) (by omega) hveq'
                  have harr : (i + 1) + mq = i + (mq + 1) := by omega
                  rw [harr] at hres
                  rw [hres, getD_set_ne _ _ _ _ _ (by omega)]
      · refine ⟨slots, live, ?_, fun j _ => rfl, ?_⟩
        · cases v <;> simp [convOutsAux, hi]
        · intro m hm hlt
          omega

theorem convOutsAux_fail (oracle : AllocOracle) :
    ∀ (m : Nat) (outs : List EValue) (i : Nat)
      (slots : List (Option ETFlutterTensorData)) (live : List Block)
      (tm : NativeTensor),
    slots.length = 16 →
    (∀ j, i ≤ j → slots.getD j none = none) →
    live = liveBlocks slots (List.range i) →
    m < outs.length → i + m < 16 →
    (∀ j, j < m → stepOk oracle (i + j) (outs.getD j .nonTensor) = true) →
    outs.getD m .nonTensor = .tensor tm →
    (convert_from_executorch_tensor oracle (i + m) tm).1 = none →
    ∃ s, convOutsAux oracle outs i slots live = .fail (i + m) s [] := by
  intro m
  induction m with
  | zero =>
      intro outs i slots live tm hlen hupper hlive hm hlt hsteps ht hfail
      cases outs with
      | nil => exact absurd hm (by simp)
      | cons v rest =>
          rw [List.getD_cons_zero] at ht
          subst ht
          rw [Nat.add_zero] at hfail ⊢
          have hi : i < 16 := by omega
          rcases hcv : convert_from_executorch_tensor oracle i tm with ⟨o, blks⟩
          have ho : o = none := by
            rw [hcv] at hfail
            exact hfail
          subst ho
          refine ⟨slots, ?_⟩
          simp only [convOutsAux, if_pos hi, hcv]
          rw [hlive, cleanupLoop_liveBlocks]
  | succ mq ih =>
      intro outs i slots live tm hlen hupper hlive hm hlt hsteps ht hfail
      cases outs with
      | nil => exact absurd hm (by simp)
      | cons v rest =>
          rw [List.length_cons] at hm
          have hi : i < 16 := by omega
          have hstep0 := hsteps 0 (Nat.succ_pos mq)
          rw [Nat.add_zero, List.getD_cons_zero] at hstep0
          have harr : (i + 1) + mq = i + (mq + 1) := by omega
          have ht' : rest.getD mq .nonTensor = .tensor tm := by simpa using ht
          have hsteps' : ∀ j, j < mq →
              stepOk oracle ((i + 1) + j) (rest.getD j .nonTensor) = true := by
            intro j hj
            have hs := hsteps (j + 1) (by omega)
            have harr2 : i + (j + 1) = (i + 1) + j := by omega
            rw [harr2] at hs
            simpa using hs
          have hfail' :
              (convert_from_executorch_tensor oracle ((i + 1) + mq) tm).1 =
                none := by
            rw [harr]
            exact hfail
          cases hv : v with
          | nonTensor =>
              have hlive' : live = liveBlocks slots (List.range (i + 1)) := by
                rw [List.range_succ, liveBlocks_append]
                have hsingle : liveBlocks slots [i] = [] := by
                  simp only [liveBlocks]
                  rw [hupper i (le_refl i)]
                  rfl
                rw [hsingle, List.append_nil]
                exact hlive
              obtain ⟨s, heq⟩ := ih rest (i + 1) slots live tm hlen
                (fun j hj => hupper j (by omega)) hlive' (by omega) (by omega)
                hsteps' ht' hfail'
              refine ⟨s, ?_⟩
              simp only [convOutsAux, if_pos hi]
              rw [heq, harr]
          | tensor t0 =>
              rw [hv] at hstep0
              have hsome :
                  (convert_from_executorch_tensor oracle i t0).1.isSome = true := by
                simpa [stepOk] using hstep0
              obtain ⟨td, hconv⟩ := convert_from_isSome_eq oracle i t0 hsome
              have hlen1 : (slots.set i (some td)).length = 16 := by
                simpa using hlen
              have hupper1 : ∀ j, i + 1 ≤ j →
                  (slots.set i (some td)).getD j none = none := by
                intro j hj
                rw [getD_set_ne _ _ _ _ _ (by omega)]
                exact hupper j (by omega)
              have hlive1 : live ++ [Block.tstruct i, Block.tdata i] =
                  liveBlocks (slots.set i (some td)) (List.range (i + 1)) := by
                rw [List.range_succ, liveBlocks_append]
                have hcongr : liveBlocks (slots.set i (some td)) (List.range i) =
                    liveBlocks slots (List.range i) := by
                  apply liveBlocks_congr
                  intro j hj
                  have hji : j < i := List.mem_range.mp hj
                  rw [getD_set_ne _ _ _ _ _ (by omega)]
                have hsingle : liveBlocks (slots.set i (some td)) [i] =
                    [Block.tstruct i, Block.tdata i] := by
                  have hgd : (slots.set i (some td)).getD i none = some td :=
                    getD_set_self _ _ _ _ (by omega)
                  simp only [liveBlocks]
                  rw [hgd]
                  rfl
                rw [hcongr, hsingle, ← hlive]
              obtain ⟨s, heq⟩ := ih rest (i + 1) (slots.set i (some td))
                (live ++ [Block.tstruct i, Block.tdata i]) tm hlen1 hupper1
                hlive1 (by omega) (by omega) hsteps' ht' hfail'
              refine ⟨s, ?_⟩
              simp only [convOutsAux, if_pos hi, hconv]
              rw [heq, harr]

/-- C2: if converting the k-th native output fails because its struct
allocation returns NULL, `et_flutter_forward` frees every block allocated
for earlier outputs in the same call (no live heap block remains), resets
the output count to 0, and reports a MEMORY error — no partial output set
reaches the caller. -/
theorem claim_C2_partial_failure_cleanup (oracle : AllocOracle)
    (engine : List EValue → Except Int (List EValue))
    (inp : ETFlutterForwardInput) (evs outs : List EValue) (k : Nat)
    (tk : NativeTensor)
    (hn : 0 < inp.num_inputs)
    (hconv : convInputsAux inp.inputs (List.range inp.num_inputs.toNat) =
      .ok evs)
    (heng : engine evs = .ok outs)
    (hk : k < outs.length) (hk16 : k < 16)
    (ht : outs.getD k .nonTensor = .tensor tk)
    (hearlier : ∀ j, j < k → stepOk oracle j (outs.getD j .nonTensor) = true)
    (hstruct : oracle.structOk k = false) :
    (et_flutter_forward oracle engine (some ()) (some inp)).1.error.code =
      .ET_FLUTTER_ERROR_MEMORY ∧
    (et_flutter_forward oracle engine (some ()) (some inp)).1.num_outputs = 0 ∧
    (et_flutter_forward oracle engine (some ()) (some inp)).2 = [] := by
  have hfail : (convert_from_executorch_tensor oracle (0 + k) tk).1 = none := by
    rw [Nat.zero_add, convert_from_structFail oracle k tk hstruct]
  obtain ⟨s, heq⟩ := convOutsAux_fail oracle k outs 0 (List.replicate 16 none)
    [] tk (by simp) (fun j _ => getD_replicate_none 16 j) rfl hk (by omega)
    (fun j hj => by simpa using hearlier j hj) (by simpa using ht) hfail
  unfold et_flutter_forward
  dsimp only
  rw [if_neg (by omega : ¬ inp.num_inputs ≤ 0), hconv]
  dsimp only
  rw [heng]
  dsimp only
  rw [heq]
  exact ⟨rfl, rfl, rfl⟩

/-- C2 witness: with an engine returning two tensor outputs and an
allocation oracle failing the struct `malloc` of output 1, the forward
call ends with a MEMORY error, zero outputs and an empty live heap. -/
theorem claim_C2_witness :
    (et_flutter_forward oracleFail1 engTwoTensors (some ()) (some inp1)).1.error.code =
      .ET_FLUTTER_ERROR_MEMORY ∧
    (et_flutter_forward oracleFail1 engTwoTensors (some ()) (some inp1)).1.num_outputs = 0 ∧
    (et_flutter_forward oracleFail1 engTwoTensors (some ()) (some inp1)).2 = [] := by
  exact claim_C2_partial_failure_cleanup oracleFail1 engTwoTensors inp1
    [EValue.tensor { scalar_type := .SFloat, sizes := [2],
                     bytes := [1, 2, 3, 4, 5, 6, 7, 8] }]
    [EValue.tensor ntByte, EValue.tensor ntByte] 1 ntByte (by decide) rfl rfl
    (by decide) (by decide) (by decide) (by decide) (by decide)

/-- C9: on a successful forward pass, non-tensor native outputs are
skipped — their slot stays unpopulated and no error is raised — but the
declared `num_outputs` equals the total number of native outputs, so the
declared count can exceed the number of populated slots. -/
theorem claim_C9_nontensor_outputs_counted (oracle : AllocOracle)
    (engine : List EValue → Except Int (List EValue))
    (inp : ETFlutterForwardInput) (evs outs : List EValue)
    (hn : 0 < inp.num_inputs)
    (hconv : convInputsAux inp.inputs (List.range inp.num_inputs.toNat) =
      .ok evs)
    (heng : engine evs = .ok outs)
    (hsucc : ∀ m, m < outs.length → m < 16 →
      stepOk oracle m (outs.getD m .nonTensor) = true) :
    (et_flutter_forward oracle engine (some ()) (some inp)).1.error.code =
      .ET_FLUTTER_SUCCESS ∧
    (et_flutter_forward oracle engine (some ()) (some inp)).1.num_outputs =
      int32Cast (outs.length : Int) ∧
    (∀ m, m < outs.length → m < 16 → outs.getD m .nonTensor = .nonTensor →
      (et_flutter_forward oracle engine (some ()) (some inp)).1.outputs.getD m
        none = none) := by
  obtain ⟨slots', live', heq, hlow, hnt⟩ := convOutsAux_ok oracle outs 0
    (List.replicate 16 none) [] (by simp)
    (fun m hm hlt => by simpa using hsucc m hm (by omega))
  unfold et_flutter_forward
  dsimp only
  rw [if_neg (by omega : ¬ inp.num_inputs ≤ 0), hconv]
  dsimp only
  rw [heng]
  dsimp only
  rw [heq]
  refine ⟨rfl, rfl, ?_⟩
  intro m hm hlt hveq
  have hres := hnt m hm (by omega) hveq
  rw [Nat.zero_add] at hres
  show slots'.getD m none = none
  rw [hres]
  exact getD_replicate_none 16 m

/-- C9 witness: an engine returning a tensor then a non-tensor yields a
declared output count of 2 with output slot 1 left unpopulated. -/
theorem claim_C9_witness :
    (et_flutter_forward allocAlwaysOk engMix (some ()) (some inp1)).1.num_outputs = 2 ∧
    (et_flutter_forward allocAlwaysOk engMix (some ()) (some inp1)).1.outputs.getD 1
      none = none := by
  have h := claim_C9_nontensor_outputs_counted allocAlwaysOk engMix inp1
    [EValue.tensor { scalar_type := .SFloat, sizes := [2],
                     bytes := [1, 2, 3, 4, 5, 6, 7, 8] }]
    [EValue.tensor ntByte, EValue.nonTensor] (by decide) rfl rfl (by decide)
  refine ⟨?_, h.2.2 1 (by decide) (by decide) (by decide)⟩
  rw [h.2.1]
  decide

/-- C1: the code contradicts the claim: with an engine whose forward pass
produces 17 tensor outputs (all allocations succeeding), the returned
`num_outputs` is 17, exceeding ET_FLUTTER_MAX_OUTPUTS = 16 — the slot
array is truncated to 16 entries but the count is not — and the
subsequent `et_flutter_free_forward_output` loop, iterating up to
`num_outputs`, reads `outputs[16]` outside the fixed 16-slot array
(modelled as the `none` result). -/
theorem claim_C1_output_count_exceeds_cap :
    (et_flutter_forward allocAlwaysOk eng17 (some ()) (some inp1)).1.num_outputs = 17 ∧
    ¬ ((et_flutter_forward allocAlwaysOk eng17 (some ()) (some inp1)).1.num_outputs ≤ 16) ∧
    et_flutter_free_forward_output
      (some (et_flutter_forward allocAlwaysOk eng17 (some ()) (some inp1)).1)
      (et_flutter_forward allocAlwaysOk eng17 (some ()) (some inp1)).2 = none := by
  decide

/-! ### Round-trip helpers -/

theorem int32Cast_eq_self (x : Int) (h0 : 0 ≤ x) (h1 : x < 2 ^ 31) :
    int32Cast x = x := by
  unfold int32Cast
  rw [Int.emod_eq_of_lt (by omega) (by omega)]
  omega

theorem prodDims_congr (d1 d2 : List Int) (n : Nat)
    (h : ∀ i < n, d1.getD i 0 = d2.getD i 0) :
    prodDims d1 n = prodDims d2 n := by
  unfold prodDims
  congr 1
  apply List.map_congr_left
  intro i hi
  rw [h i (List.mem_range.mp hi)]

theorem convert_from_success_eq (oracle : AllocOracle) (i : Nat)
    (sty : ScalarType) (dtv : Int) (sizes : List Int) (bs : List Nat)
    (hs : oracle.structOk i = true) (hd : oracle.dataOk i = true)
    (hmap : mapScalarToDtype sty = some dtv) :
    convert_from_executorch_tensor oracle i
        { scalar_type := sty, sizes := sizes, bytes := bs } =
      (some { shape := { num_dims := int32Cast (sizes.length : Int),
                         dims := (List.range 8).map
                           (fun j => if j < sizes.length then sizes.getD j 0
                             else 0) },
              dtype := dtv,
              data := some (bs.take (et_flutter_tensor_data_size
                (some { shape := { num_dims := int32Cast (sizes.length : Int),
                                   dims := (List.range 8).map
                                     (fun j => if j < sizes.length then
                                       sizes.getD j 0 else 0) },
                        dtype := dtv, data := none, data_size := 0,
                        name := [] }))),
              data_size := et_flutter_tensor_data_size
                (some { shape := { num_dims := int32Cast (sizes.length : Int),
                                   dims := (List.range 8).map
                                     (fun j => if j < sizes.length then
                                       sizes.getD j 0 else 0) },
                        dtype := dtv, data := none, data_size := 0,
                        name := [] }),
              name := [] },
       [Block.tstruct i, Block.tdata i]) := by
  unfold convert_from_executorch_tensor
  rw [if_neg (by simp [hs]), hmap]
  dsimp only
  rw [if_neg (by simp [hd])]

/-- C5 counterexample: the claim as stated fails on the code.  The
descriptor `tHuge` (shape [2^31], dtype UInt8, `data_size = 2^31`) is
accepted by `et_flutter_tensor_validate`, yet the round trip through the
converters (the engine an identity pass-through, all allocations
succeeding) returns a descriptor whose dimension is the int32-truncated
`-2^31` and whose `data_size` is the wrapped `2^64 - 2^31` — neither the
same shape nor the same byte length as the original. -/
theorem claim_C5_counterexample :
    (et_flutter_tensor_validate (some tHuge) e0).1 = .ET_FLUTTER_SUCCESS ∧
    tHuge.dtype = ET_FLUTTER_DTYPE_UINT8 ∧
    (roundTrip allocAlwaysOk 0 (some tHuge)).isSome = true ∧
    ((roundTrip allocAlwaysOk 0 (some tHuge)).getD tDefault).shape.dims.getD
        0 0 ≠ tHuge.shape.dims.getD 0 0 ∧
    ((roundTrip allocAlwaysOk 0 (some tHuge)).getD tDefault).data_size ≠
      tHuge.data_size := by
  decide

/-- C5 (amended): round-trip preservation holds for every valid descriptor
of a supported dtype whose dimensions each fit the native `SizesType`
(`int32_t`, i.e. are below `2^31`) and whose data buffer actually holds
`data_size` bytes: converting to the native tensor view (zero-copy) and
converting the result back (deep copy, allocations succeeding) reproduces
the shape, the dtype, the byte length and exactly the original bytes.
For a valid descriptor with a dimension at least `2^31` the converter's
int32 cast truncates the dimension and the round trip does not reproduce
the descriptor. -/
theorem claim_C5_round_trip (t : ETFlutterTensorData) (e : ETFlutterError)
    (oracle : AllocOracle) (i : Nat) (bs : List Nat)
    (hv : (et_flutter_tensor_validate (some t) e).1 = .ET_FLUTTER_SUCCESS)
    (hdt : t.dtype = ET_FLUTTER_DTYPE_FLOAT32 ∨
      t.dtype = ET_FLUTTER_DTYPE_INT32 ∨ t.dtype = ET_FLUTTER_DTYPE_INT8 ∨
      t.dtype = ET_FLUTTER_DTYPE_UINT8)
    (hdata : t.data = some bs)
    (hlen : bs.length = t.data_size)
    (hdims : ∀ j < t.shape.num_dims.toNat, t.shape.dims.getD j 0 < 2 ^ 31)
    (hso : oracle.structOk i = true) (hdo : oracle.dataOk i = true) :
    ∃ nt td, convert_to_executorch_tensor (some t) = some nt ∧
      (convert_from_executorch_tensor oracle i nt).1 = some td ∧
      td.shape.num_dims = t.shape.num_dims ∧
      (∀ j < t.shape.num_dims.toNat,
        td.shape.dims.getD j 0 = t.shape.dims.getD j 0) ∧
      td.dtype = t.dtype ∧ td.data_size = t.data_size ∧ td.data = some bs := by
  obtain ⟨h1, h2, hpos, -, hsize⟩ := (validate_success_iff t e).mp hv
  obtain ⟨sty, hst, hback⟩ : ∃ sty,
      (if t.dtype = ET_FLUTTER_DTYPE_FLOAT32 then some ScalarType.SFloat
       else if t.dtype = ET_FLUTTER_DTYPE_INT32 then some ScalarType.SInt
       else if t.dtype = ET_FLUTTER_DTYPE_INT8 then some ScalarType.SChar
       else if t.dtype = ET_FLUTTER_DTYPE_UINT8 then some ScalarType.SByte
       else none) = some sty ∧ mapScalarToDtype sty = some t.dtype := by
    rcases hdt with h | h | h | h
    · exact ⟨.SFloat, by simp [h], by simp [mapScalarToDtype, h]⟩
    · refine ⟨.SInt, ?_, by simp [mapScalarToDtype, h]⟩
      rw [if_neg (by rw [h]; decide), if_pos h]
    · refine ⟨.SChar, ?_, by simp [mapScalarToDtype, h]⟩
      rw [if_neg (by rw [h]; decide), if_neg (by rw [h]; decide), if_pos h]
    · refine ⟨.SByte, ?_, by simp [mapScalarToDtype, h]⟩
      rw [if_neg (by rw [h]; decide), if_neg (by rw [h]; decide),
        if_neg (by rw [h]; decide), if_pos h]
  have hcto : convert_to_executorch_tensor (some t) =
      some { scalar_type := sty,
             sizes := (List.range t.shape.num_dims.toNat).map
               (fun j => int32Cast (t.shape.dims.getD j 0)),
             bytes := bs } := by
    unfold convert_to_executorch_tensor
    simp only [hdata, hst]
  have hn8 : t.shape.num_dims.toNat ≤ 8 := by omega
  have hszlen : ((List.range t.shape.num_dims.toNat).map
      (fun j => int32Cast (t.shape.dims.getD j 0))).length =
      t.shape.num_dims.toNat := by
    simp
  have hcastn : int32Cast ((t.shape.num_dims.toNat : Nat) : Int) =
      t.shape.num_dims := by
    rw [int32Cast_eq_self _ (by omega) (by omega)]
    omega
  have hsizes_entries : ∀ j, j < t.shape.num_dims.toNat →
      ((List.range t.shape.num_dims.toNat).map
        (fun j => int32Cast (t.shape.dims.getD j 0))).getD j 0 =
      t.shape.dims.getD j 0 := by
    intro j hj
    rw [getD_map_range _ j _ 0, if_pos hj]
    exact int32Cast_eq_self _ (by exact (hpos j hj).le) (hdims j hj)
  have hcfrom := convert_from_success_eq oracle i sty t.dtype
    ((List.range t.shape.num_dims.toNat).map
      (fun j => int32Cast (t.shape.dims.getD j 0))) bs hso hdo hback
  rw [hszlen, hcastn] at hcfrom
  have hdims'_entries : ∀ j, j < t.shape.num_dims.toNat →
      ((List.range 8).map
        (fun j => if j < t.shape.num_dims.toNat then
          ((List.range t.shape.num_dims.toNat).map
            (fun j => int32Cast (t.shape.dims.getD j 0))).getD j 0
          else 0)).getD j 0 = t.shape.dims.getD j 0 := by
    intro j hj
    rw [getD_map_range 8 j _ 0, if_pos (by omega : j < 8), if_pos hj]
    exact hsizes_entries j hj
  have hDS : et_flutter_tensor_data_size
      (some { shape := { num_dims := t.shape.num_dims,
                         dims := (List.range 8).map
                           (fun j => if j < t.shape.num_dims.toNat then
                             ((List.range t.shape.num_dims.toNat).map
                               (fun j => int32Cast (t.shape.dims.getD j 0))).getD
                               j 0 else 0) },
              dtype := t.dtype, data := none, data_size := 0, name := [] }) =
      t.data_size := by
    rw [hsize]
    show prodDims _ t.shape.num_dims.toNat * et_flutter_dtype_size t.dtype % W =
      prodDims t.shape.dims t.shape.num_dims.toNat *
        et_flutter_dtype_size t.dtype % W
    rw [prodDims_congr _ t.shape.dims _ hdims'_entries]
  rw [hDS] at hcfrom
  refine ⟨_,
    { shape := { num_dims := t.shape.num_dims,
                 dims := (List.range 8).map
                   (fun j => if j < t.shape.num_dims.toNat then
                     ((List.range t.shape.num_dims.toNat).map
                       (fun j => int32Cast (t.shape.dims.getD j 0))).getD j 0
                     else 0) },
      dtype := t.dtype, data := some (bs.take t.data_size),
      data_size := t.data_size, name := [] },
    hcto, ?_, rfl, ?_, rfl, rfl, ?_⟩
  · rw [hcfrom]
  · intro j hj
    exact hdims'_entries j hj
  · show some (bs.take t.data_size) = some bs
    rw [← hlen, List.take_length]

/-- C5 witness: the round trip instantiated at the concrete valid Float32
tensor of shape [2] — its zero-copy native view exists. -/
theorem claim_C5_witness :
    (convert_to_executorch_tensor (some tGood)).isSome = true := by
  obtain ⟨nt, td, hto, -⟩ := claim_C5_round_trip tGood e0 allocAlwaysOk 0
    [1, 2, 3, 4, 5, 6, 7, 8] (by decide) (by decide) rfl (by decide) (by decide)
    rfl rfl
  rw [hto]
  rfl

end ETFlutter
